import Mathlib

/-!
Verification of the theoremc schema loading pipeline.

This development shallowly embeds the Rust source of the `schema`
module (identifier validation, value model, expression classification,
step validation, document validation, raw-document conversion,
diagnostic location recovery, and the loader) as executable Lean
definitions, and proves the specification's claims about them.

The external YAML parser (`serde_saphyr`) and the Rust expression
parser (`syn::parse_str`) are third-party collaborators: they are
modelled as parameters or as explicit input trees; every decision made
by code in the repository itself is translated directly.
-/

deriving instance DecidableEq for Except

namespace Theoremc

/-- Source location as reported by the YAML parser (`serde_saphyr::Location`). -/
structure Location where
  line : Nat
  column : Nat
deriving DecidableEq, Repr

/-- A value paired with its source location (`serde_saphyr::Spanned`). -/
structure Spanned (α : Type) where
  value : α
  referenced : Location
deriving DecidableEq, Repr

/-- Error type from `error.rs` (the revision used by the loader and
validator in `src/`): deserialization failure, invalid identifier,
or post-deserialization validation failure. -/
inductive SchemaError where
  | Deserialize (message : String)
  | InvalidIdentifier (identifier : String) (reason : String)
  | ValidationFailed (theorem_name : String) (reason : String)
deriving DecidableEq, Repr

-- ── Character-list string primitives ────────────────────────────────

/-- The `str::trim` on the character list: whitespace removed from both
ends. -/
def strTrimList (l : List Char) : List Char :=
  ((l.dropWhile Char.isWhitespace).reverse.dropWhile Char.isWhitespace).reverse

/-- The `str::trim`. -/
def strTrim (s : String) : String := ⟨strTrimList s.data⟩

/-- The `is_blank` from `validate.rs` (`s.trim().is_empty()`), also used
for the inline blank tests in `step.rs`. -/
def is_blank (s : String) : Bool := (strTrimList s.data).isEmpty

/-- The `str::starts_with` for a string pattern. -/
def strStarts (pre s : String) : Bool := pre.data.isPrefixOf s.data

-- ── Identifier validation (identifier.rs) ───────────────────────────

/-- The fixed reserved-word table `RUST_KEYWORDS` from `identifier.rs`:
strict keywords, reserved keywords, the 2024-edition reserved keyword,
and weak keywords. -/
def RUST_KEYWORDS : List String := [
  "as", "async", "await", "break", "const", "continue", "crate", "dyn",
  "else", "enum", "extern", "false", "fn", "for", "if", "impl", "in",
  "let", "loop", "match", "mod", "move", "mut", "pub", "ref", "return",
  "self", "Self", "static", "struct", "super", "trait", "true", "type",
  "unsafe", "use", "where", "while",
  "abstract", "become", "box", "do", "final", "macro", "override",
  "priv", "try", "typeof", "unsized", "virtual", "yield",
  "gen", "union"]

/-- The `is_valid_identifier_pattern` from `identifier.rs`: first character
is an ASCII letter or underscore, remaining characters are ASCII
alphanumeric or underscore. -/
def is_valid_identifier_pattern (s : String) : Bool :=
  match s.toList with
  | [] => false
  | first :: rest =>
    (first.isAlpha || first == '_') && rest.all (fun c => c.isAlphanum || c == '_')

/-- The `is_rust_keyword` from `identifier.rs`. -/
def is_rust_keyword (s : String) : Bool :=
  RUST_KEYWORDS.contains s

/-- Reason string for the empty-identifier failure. -/
def emptyIdentReason : String := "identifier must not be empty"

/-- Reason string for the pattern-mismatch failure (a `concat!` of four
string pieces in the source). -/
def patternReason : String :=
  "must match the pattern " ++
  "^[A-Za-z_][A-Za-z0-9_]*$ " ++
  "(ASCII letters, digits, and underscores; " ++
  "must not start with a digit)"

/-- Reason string for the reserved-word failure. -/
def keywordReason : String :=
  "this is a Rust reserved keyword and cannot " ++
  "be used as a theorem identifier"

/-- The `validate_identifier` from `identifier.rs`: empty check, then
pattern check, then reserved-word check. -/
def validate_identifier (s : String) : Except SchemaError Unit :=
  if s.data.isEmpty then
    .error (.InvalidIdentifier s emptyIdentReason)
  else if !(is_valid_identifier_pattern s) then
    .error (.InvalidIdentifier s patternReason)
  else if is_rust_keyword s then
    .error (.InvalidIdentifier s keywordReason)
  else
    .ok ()

-- ── Specification-side characterization of the name pattern ─────────

/-- A character of the class `[A-Za-z_]` (legal identifier start). -/
def StartChar (c : Char) : Prop :=
  ('A' ≤ c ∧ c ≤ 'Z') ∨ ('a' ≤ c ∧ c ≤ 'z') ∨ c = '_'

/-- A character of the class `[A-Za-z0-9_]` (legal identifier continuation). -/
def ContChar (c : Char) : Prop :=
  ('A' ≤ c ∧ c ≤ 'Z') ∨ ('a' ≤ c ∧ c ≤ 'z') ∨ ('0' ≤ c ∧ c ≤ '9') ∨ c = '_'

/-- The regex `^[A-Za-z_][A-Za-z0-9_]*$` as a predicate on strings,
written independently of the code's character-iterator loop. -/
def MatchesIdentPattern (s : String) : Prop :=
  s.toList ≠ [] ∧ (∀ c ∈ s.toList.take 1, StartChar c) ∧
    (∀ c ∈ s.toList.drop 1, ContChar c)

instance (c : Char) : Decidable (StartChar c) := by
  unfold StartChar; infer_instance

instance (c : Char) : Decidable (ContChar c) := by
  unfold ContChar; infer_instance

instance (s : String) : Decidable (MatchesIdentPattern s) := by
  unfold MatchesIdentPattern; infer_instance

theorem isAlpha_iff (c : Char) :
    (c.isAlpha || c == '_') = true ↔ StartChar c := by
  simp [Char.isAlpha, Char.isUpper, Char.isLower, Char.le_def, StartChar]
  tauto

theorem isAlphanum_iff (c : Char) :
    (c.isAlphanum || c == '_') = true ↔ ContChar c := by
  simp [Char.isAlphanum, Char.isAlpha, Char.isUpper, Char.isLower,
    Char.isDigit, Char.le_def, ContChar]
  tauto

/-- The code's character-loop pattern test agrees with the regex
predicate `MatchesIdentPattern`. -/
theorem is_valid_identifier_pattern_iff (s : String) :
    is_valid_identifier_pattern s = true ↔ MatchesIdentPattern s := by
  unfold is_valid_identifier_pattern MatchesIdentPattern
  cases h : s.toList with
  | nil => simp
  | cons c0 rest =>
    simp only [List.take, List.drop, Bool.and_eq_true, List.all_eq_true,
      ne_eq, reduceCtorEq, not_false_eq_true, true_and]
    constructor
    · rintro ⟨h1, h2⟩
      refine ⟨?_, ?_⟩
      · intro c hc
        simp only [List.mem_singleton] at hc
        subst hc
        exact (isAlpha_iff _).mp h1
      · intro c hc
        exact (isAlphanum_iff c).mp (h2 c hc)
    · rintro ⟨h1, h2⟩
      refine ⟨?_, ?_⟩
      · exact (isAlpha_iff c0).mpr (h1 c0 (List.mem_singleton.mpr rfl))
      · intro c hc
        exact (isAlphanum_iff c).mpr (h2 c hc)

-- ── Validated newtypes (newtypes.rs) ────────────────────────────────

/-- The `TheoremName`: a wrapper around a validated theorem-name string. -/
structure TheoremName where
  val : String
deriving DecidableEq, Repr

/-- The `TheoremName::new`: validates, then wraps. -/
def TheoremName.new (s : String) : Except SchemaError TheoremName :=
  match validate_identifier s with
  | .error e => .error e
  | .ok () => .ok ⟨s⟩

/-- The `Deserialize for TheoremName`: deserializes the string (modelled as
already given), validates it, then wraps.  The validation and wrapping
steps coincide with `TheoremName.new`. -/
def TheoremName.deserializeFrom (s : String) : Except SchemaError TheoremName :=
  match validate_identifier s with
  | .error e => .error e
  | .ok () => .ok ⟨s⟩

/-- The `ForallVar`: a wrapper around a validated quantified-variable name. -/
structure ForallVar where
  val : String
deriving DecidableEq, Repr

/-- The `ForallVar::new`: validates, then wraps. -/
def ForallVar.new (s : String) : Except SchemaError ForallVar :=
  match validate_identifier s with
  | .error e => .error e
  | .ok () => .ok ⟨s⟩

/-- The `Deserialize for ForallVar`: deserializes the string, validates it,
then wraps. -/
def ForallVar.deserializeFrom (s : String) : Except SchemaError ForallVar :=
  match validate_identifier s with
  | .error e => .error e
  | .ok () => .ok ⟨s⟩

-- ── Expression classification (expr.rs) ─────────────────────────────

/-- Binary operators of `syn::BinOp` (syn 2.x), covering both ordinary
operators and the compound-assignment operators. -/
inductive BinOp where
  | Add | Sub | Mul | Div | Rem | And | Or | BitXor | BitAnd | BitOr
  | Shl | Shr | Eq | Lt | Le | Ne | Ge | Gt
  | AddAssign | SubAssign | MulAssign | DivAssign | RemAssign
  | BitXorAssign | BitAndAssign | BitOrAssign | ShlAssign | ShrAssign
deriving DecidableEq, Repr

/-- The variants of `syn::Expr` (syn 2.x).  Payloads other than the
binary operator are irrelevant to the classifier and are omitted. -/
inductive SynExpr where
  | Array | Assign | Async | Await
  | Binary (op : BinOp)
  | Block | Break | Call | Cast | Closure | Const | Continue | Field
  | ForLoop | Group | If | Index | Infer | Let | Lit | Loop | Macro
  | Match | MethodCall | Paren | Path | Range | RawAddr | Reference
  | Repeat | Return | Struct | Try | TryBlock | Tuple | Unary | Unsafe
  | Verbatim | While | Yield
deriving DecidableEq, Repr

/-- The `is_compound_assignment` from `expr.rs`: true exactly on
`Expr::Binary` with a `*Assign` operator. -/
def is_compound_assignment (e : SynExpr) : Bool :=
  match e with
  | .Binary op =>
    match op with
    | .AddAssign | .SubAssign | .MulAssign | .DivAssign | .RemAssign
    | .BitXorAssign | .BitAndAssign | .BitOrAssign
    | .ShlAssign | .ShrAssign => true
    | _ => false
  | _ => false

/-- The `is_statement_like` from `expr.rs`: the `matches!` over the
fourteen statement-like variants, or a compound assignment. -/
def is_statement_like (e : SynExpr) : Bool :=
  (match e with
   | .Assign | .Async | .Block | .Break | .Const | .Continue
   | .ForLoop | .Let | .Loop | .Return | .TryBlock | .Unsafe
   | .While | .Yield => true
   | _ => false) || is_compound_assignment e

/-- Reason string for statement-like rejection (`concat!` in the source). -/
def statementLikeReason : String :=
  "must be a single expression, " ++ "not a statement or block"

/-- Prefix of the parse-failure reason in `validate_rust_expr`. -/
def notValidExprText : String := "is not a valid Rust expression: "

/-- The `validate_rust_expr` from `expr.rs`, parameterized by the external
parser `syn::parse_str` (`parse`): a parse failure is mapped to the
fixed reason text followed by the parser detail, and a successful parse
is rejected when the node is statement-like. -/
def validate_rust_expr (parse : String → Except String SynExpr)
    (input : String) : Except String Unit :=
  match parse input with
  | .error err => .error (notValidExprText ++ err)
  | .ok parsed =>
    if is_statement_like parsed then
      .error statementLikeReason
    else
      .ok ()

/-- The statement-like forms listed by the specification: a block, a
for/while/unbounded loop, a local binding, an unsafe/async/const/try
block, a control transfer (return/break/continue/yield), a plain
assignment, or a compound assignment. -/
def StatementForm (e : SynExpr) : Prop :=
  e = .Block ∨ e = .ForLoop ∨ e = .While ∨ e = .Loop ∨ e = .Let ∨
  e = .Unsafe ∨ e = .Async ∨ e = .Const ∨ e = .TryBlock ∨
  e = .Return ∨ e = .Break ∨ e = .Continue ∨ e = .Yield ∨
  e = .Assign ∨
  (∃ op, e = .Binary op ∧
    (op = .AddAssign ∨ op = .SubAssign ∨ op = .MulAssign ∨
     op = .DivAssign ∨ op = .RemAssign ∨ op = .BitXorAssign ∨
     op = .BitAndAssign ∨ op = .BitOrAssign ∨ op = .ShlAssign ∨
     op = .ShrAssign))

/-- The code's statement-like test matches the specification's list of
rejected forms exactly. -/
theorem is_statement_like_iff (e : SynExpr) :
    is_statement_like e = true ↔ StatementForm e := by
  cases e with
  | Binary op =>
    cases op <;> simp [is_statement_like, is_compound_assignment, StatementForm]
  | _ => simp [is_statement_like, is_compound_assignment, StatementForm]

instance (e : SynExpr) : Decidable (StatementForm e) :=
  decidable_of_iff (is_statement_like e = true) (is_statement_like_iff e)

-- ── Value model (value.rs) ──────────────────────────────────────────

/-- The `TheoremValue` from `value.rs`: a closed, null-free tagged union.
Mappings are `IndexMap<String, TheoremValue>`, modelled as ordered
association lists; floats are carried opaquely by their bit pattern. -/
inductive TheoremValue where
  | Bool (b : Bool)
  | Integer (v : Int)
  | Float (bits : Nat)
  | String (s : String)
  | Sequence (items : List TheoremValue)
  | Mapping (entries : List (String × TheoremValue))
deriving Repr

/-- The `IndexMap::insert` semantics on an ordered association list: an
existing key keeps its position and gets the new value; a fresh key is
appended at the end (first-seen key order). -/
def indexmap_insert {α : Type} (m : List (String × α)) (k : String) (v : α) :
    List (String × α) :=
  if m.any (fun p => p.1 == k) then
    m.map (fun p => if p.1 == k then (k, v) else p)
  else m ++ [(k, v)]

/-- The structured input handed to `TheoremValueVisitor` by the YAML
deserializer: scalars dispatch to the matching `visit_*` method, `null`
dispatches to `visit_unit`, unsigned scalars above the signed range
dispatch to `visit_u64`, sequences and mappings to `visit_seq` and
`visit_map`. -/
inductive RawYaml where
  | null
  | bool (b : Bool)
  | i64 (v : Int)
  | u64 (v : Nat)
  | f64 (bits : Nat)
  | str (s : String)
  | seq (items : List RawYaml)
  | map (entries : List (String × RawYaml))
deriving Repr

/-- The `i64::MAX`. -/
def I64_MAX : Nat := 9223372036854775807

/-- The `visit_unit` / `visit_none` error text. -/
def nullNotPermitted : String :=
  "null values are not permitted in theorem documents"

/-- The `visit_u64` out-of-range error text. -/
def outOfRangeMsg (v : Nat) : String :=
  "integer " ++ toString v ++ " is out of range for i64"

mutual

/-- The `TheoremValueVisitor` from `value.rs`: null is rejected, `u64`
values are converted via `i64::try_from` (rejecting values above
`i64::MAX`), other scalars pass through, sequences recurse per item,
and mappings recurse per entry inserting into an `IndexMap`. -/
def deserialize_theorem_value : RawYaml → Except String TheoremValue
  | .null => .error nullNotPermitted
  | .bool b => .ok (.Bool b)
  | .i64 v => .ok (.Integer v)
  | .u64 v =>
    if v ≤ I64_MAX then .ok (.Integer (Int.ofNat v))
    else .error (outOfRangeMsg v)
  | .f64 bits => .ok (.Float bits)
  | .str s => .ok (.String s)
  | .seq items =>
    match deserialize_seq items with
    | .error e => .error e
    | .ok vs => .ok (.Sequence vs)
  | .map entries =>
    match deserialize_entries entries [] with
    | .error e => .error e
    | .ok m => .ok (.Mapping m)

/-- The `visit_seq` loop: items deserialized left to right, first
error wins. -/
def deserialize_seq : List RawYaml → Except String (List TheoremValue)
  | [] => .ok []
  | x :: xs =>
    match deserialize_theorem_value x with
    | .error e => .error e
    | .ok v =>
      match deserialize_seq xs with
      | .error e => .error e
      | .ok vs => .ok (v :: vs)

/-- The `visit_map` loop: entries deserialized left to right and
inserted into the accumulating `IndexMap`, first error wins. -/
def deserialize_entries :
    List (String × RawYaml) → List (String × TheoremValue) →
    Except String (List (String × TheoremValue))
  | [], acc => .ok acc
  | (k, x) :: xs, acc =>
    match deserialize_theorem_value x with
    | .error e => .error e
    | .ok v => deserialize_entries xs (indexmap_insert acc k v)

end

mutual

/-- True when a `null` leaf occurs anywhere in the input tree. -/
def contains_null : RawYaml → Bool
  | .null => true
  | .bool _ => false
  | .i64 _ => false
  | .u64 _ => false
  | .f64 _ => false
  | .str _ => false
  | .seq items => contains_null_list items
  | .map entries => contains_null_entries entries

def contains_null_list : List RawYaml → Bool
  | [] => false
  | x :: xs => contains_null x || contains_null_list xs

def contains_null_entries : List (String × RawYaml) → Bool
  | [] => false
  | (_, x) :: xs => contains_null x || contains_null_entries xs

end

mutual

/-- Specification-side exact-construction relation: the output value
mirrors the input structurally, scalar for scalar, item for item and
entry for entry, in order, with unsigned integers in signed range and
mapping keys distinct (the structural layer rejects duplicate keys
before the visitor runs). -/
inductive MirrorsValue : RawYaml → TheoremValue → Prop where
  | bool (b : Bool) : MirrorsValue (.bool b) (.Bool b)
  | i64 (v : Int) : MirrorsValue (.i64 v) (.Integer v)
  | u64 (v : Nat) (h : v ≤ I64_MAX) :
      MirrorsValue (.u64 v) (.Integer (Int.ofNat v))
  | f64 (bits : Nat) : MirrorsValue (.f64 bits) (.Float bits)
  | str (s : String) : MirrorsValue (.str s) (.String s)
  | seq (items : List RawYaml) (vals : List TheoremValue)
      (h : MirrorsSeq items vals) :
      MirrorsValue (.seq items) (.Sequence vals)
  | map (entries : List (String × RawYaml))
      (vals : List (String × TheoremValue))
      (hnd : (entries.map Prod.fst).Nodup)
      (h : MirrorsEntries entries vals) :
      MirrorsValue (.map entries) (.Mapping vals)

inductive MirrorsSeq : List RawYaml → List TheoremValue → Prop where
  | nil : MirrorsSeq [] []
  | cons {x : RawYaml} {v : TheoremValue} {xs : List RawYaml}
      {vs : List TheoremValue} :
      MirrorsValue x v → MirrorsSeq xs vs → MirrorsSeq (x :: xs) (v :: vs)

inductive MirrorsEntries :
    List (String × RawYaml) → List (String × TheoremValue) → Prop where
  | nil : MirrorsEntries [] []
  | cons {k : String} {x : RawYaml} {v : TheoremValue}
      {xs : List (String × RawYaml)} {vs : List (String × TheoremValue)} :
      MirrorsValue x v → MirrorsEntries xs vs →
      MirrorsEntries ((k, x) :: xs) ((k, v) :: vs)

end

theorem indexmap_insert_fresh {α : Type} (acc : List (String × α))
    (k : String) (v : α) (h : acc.any (fun p => p.1 == k) = false) :
    indexmap_insert acc k v = acc ++ [(k, v)] := by
  simp [indexmap_insert, h]

mutual

theorem deser_of_mirrors :
    ∀ {v : RawYaml} {t : TheoremValue}, MirrorsValue v t →
      deserialize_theorem_value v = .ok t
  | _, _, .bool b => rfl
  | _, _, .i64 v => rfl
  | _, _, .u64 v h => by simp [deserialize_theorem_value, h]
  | _, _, .f64 bits => rfl
  | _, _, .str s => rfl
  | _, _, .seq items vals h => by
      simp only [deserialize_theorem_value]
      rw [deser_seq_of_mirrors h]
  | _, _, .map entries vals hnd h => by
      simp only [deserialize_theorem_value]
      rw [deser_entries_of_mirrors h hnd [] (by intro k hk; rfl)]
      simp

theorem deser_seq_of_mirrors :
    ∀ {items : List RawYaml} {vals : List TheoremValue},
      MirrorsSeq items vals → deserialize_seq items = .ok vals
  | _, _, .nil => rfl
  | _, _, .cons hx hxs => by
      simp only [deserialize_seq]
      rw [deser_of_mirrors hx, deser_seq_of_mirrors hxs]

theorem deser_entries_of_mirrors :
    ∀ {entries : List (String × RawYaml)}
      {vals : List (String × TheoremValue)},
      MirrorsEntries entries vals → (entries.map Prod.fst).Nodup →
      ∀ acc : List (String × TheoremValue),
      (∀ k ∈ entries.map Prod.fst, acc.any (fun p => p.1 == k) = false) →
      deserialize_entries entries acc = .ok (acc ++ vals)
  | _, _, .nil, _, acc, _ => by simp [deserialize_entries]
  | _, _, @MirrorsEntries.cons k x v xs vs hx hxs,
      hnd, acc, hfresh => by
      simp only [deserialize_entries]
      rw [deser_of_mirrors hx]
      show deserialize_entries xs (indexmap_insert acc k v) =
        Except.ok (acc ++ (k, v) :: vs)
      simp only [List.map_cons, List.nodup_cons, List.mem_map] at hnd
      rw [indexmap_insert_fresh acc k v
        (hfresh k (by simp))]
      rw [deser_entries_of_mirrors hxs hnd.2 (acc ++ [(k, v)]) ?_]
      · simp
      · intro k2 hk2
        have hne : k ≠ k2 := by
          intro heq
          subst heq
          simp only [List.mem_map] at hk2
          obtain ⟨p, hp, hpk⟩ := hk2
          exact hnd.1 ⟨p, hp, hpk⟩
        have h1 := hfresh k2 (by simp [hk2])
        simp [List.any_append, List.any_cons, h1, hne]

end

mutual

theorem deser_err_of_null :
    ∀ {v : RawYaml}, contains_null v = true →
      ∃ e, deserialize_theorem_value v = .error e
  | .null, _ =>
      Exists.intro nullNotPermitted (by simp [deserialize_theorem_value])
  | .bool _, h => by simp [contains_null] at h
  | .i64 _, h => by simp [contains_null] at h
  | .u64 _, h => by simp [contains_null] at h
  | .f64 _, h => by simp [contains_null] at h
  | .str _, h => by simp [contains_null] at h
  | .seq items, h => by
      simp only [contains_null] at h
      obtain ⟨e, he⟩ := deser_seq_err_of_null h
      exact ⟨e, by simp [deserialize_theorem_value, he]⟩
  | .map entries, h => by
      simp only [contains_null] at h
      obtain ⟨e, he⟩ := deser_entries_err_of_null h []
      exact ⟨e, by simp [deserialize_theorem_value, he]⟩

theorem deser_seq_err_of_null :
    ∀ {items : List RawYaml}, contains_null_list items = true →
      ∃ e, deserialize_seq items = .error e
  | [], h => by simp [contains_null_list] at h
  | x :: xs, h => by
      simp only [contains_null_list, Bool.or_eq_true] at h
      cases hd : deserialize_theorem_value x with
      | error e => exact ⟨e, by simp [deserialize_seq, hd]⟩
      | ok v =>
        cases h with
        | inl h1 =>
          obtain ⟨e, he⟩ := deser_err_of_null h1
          rw [hd] at he
          exact absurd he (by simp)
        | inr h2 =>
          obtain ⟨e, he⟩ := deser_seq_err_of_null h2
          exact ⟨e, by simp [deserialize_seq, hd, he]⟩

theorem deser_entries_err_of_null :
    ∀ {entries : List (String × RawYaml)},
      contains_null_entries entries = true →
      ∀ acc, ∃ e, deserialize_entries entries acc = .error e
  | [], h => by simp [contains_null_entries] at h
  | (k, x) :: xs, h => by
      intro acc
      simp only [contains_null_entries, Bool.or_eq_true] at h
      cases hd : deserialize_theorem_value x with
      | error e => exact ⟨e, by simp [deserialize_entries, hd]⟩
      | ok v =>
        cases h with
        | inl h1 =>
          obtain ⟨e, he⟩ := deser_err_of_null h1
          rw [hd] at he
          exact absurd he (by simp)
        | inr h2 =>
          obtain ⟨e, he⟩ := deser_entries_err_of_null h2 (indexmap_insert acc k v)
          exact ⟨e, by simp [deserialize_entries, hd, he]⟩

end

-- ── Steps and action calls (types.rs, step.rs) ──────────────────────

/-- The `ActionCall` from `types.rs`: dot-separated action path, ordered
argument mapping, optional result binding. -/
structure ActionCall where
  action : String
  args : List (String × TheoremValue)
  as_binding : Option String
deriving Repr

mutual

/-- The `Step` from `types.rs`: invoke (`call`), invoke-and-prove
(`must`), or conditional branch (`maybe`).  The serde wrapper structs
`StepCall`/`StepMust`/`StepMaybe` hold exactly one field each and are
flattened into the constructor payloads. -/
inductive Step where
  | call (call : ActionCall)
  | must (must : ActionCall)
  | maybe (maybe : MaybeBlock)

/-- The `MaybeBlock` from `types.rs`: a justification and the nested steps. -/
inductive MaybeBlock where
  | mk (because : String) (do_steps : List Step)

end

def MaybeBlock.because : MaybeBlock → String
  | .mk b _ => b

def MaybeBlock.do_steps : MaybeBlock → List Step
  | .mk _ d => d

/-- The blank-action reason from `validate_action_call`. -/
def actionNonEmptyMsg : String := "action must be non-empty after trimming"

/-- The `validate_action_call` from `step.rs`. -/
def validate_action_call (ac : ActionCall) : Except String Unit :=
  if is_blank ac.action then .error actionNonEmptyMsg else .ok ()

/-- The `maybe.because` blank reason (`concat!` in the source). -/
def maybeBecauseMsg (path : String) (pos : Nat) : String :=
  path ++ " " ++ toString pos ++ ": maybe.because must be " ++
  "non-empty after trimming"

/-- The `maybe.do` empty reason (`concat!` in the source). -/
def maybeDoEmptyMsg (path : String) (pos : Nat) : String :=
  path ++ " " ++ toString pos ++ ": maybe.do must contain " ++
  "at least one step"

/-- The nested path label built by `validate_maybe_block`. -/
def nestedPath (path : String) (pos : Nat) : String :=
  path ++ " " ++ toString pos ++ ": maybe.do step"

mutual

/-- The enumerated loop of `validate_step_list`, carrying the 1-based
position of the next step. -/
def validate_steps_from : List Step → String → Nat → Except String Unit
  | [], _, _ => .ok ()
  | s :: rest, path, i =>
    match validate_step s path i with
    | .error e => .error e
    | .ok () => validate_steps_from rest path (i + 1)

/-- The `validate_step` from `step.rs`. -/
def validate_step : Step → String → Nat → Except String Unit
  | .call c, path, pos =>
    match validate_action_call c with
    | .error reason => .error (path ++ " " ++ toString pos ++ ": " ++ reason)
    | .ok () => .ok ()
  | .must m, path, pos =>
    match validate_action_call m with
    | .error reason => .error (path ++ " " ++ toString pos ++ ": " ++ reason)
    | .ok () => .ok ()
  | .maybe m, path, pos => validate_maybe_block m path pos

/-- The `validate_maybe_block` from `step.rs`. -/
def validate_maybe_block : MaybeBlock → String → Nat → Except String Unit
  | .mk because do_steps, path, pos =>
    if is_blank because then .error (maybeBecauseMsg path pos)
    else if do_steps.isEmpty then .error (maybeDoEmptyMsg path pos)
    else validate_steps_from do_steps (nestedPath path pos) 1

end

/-- The `validate_step_list` from `step.rs`: steps validated in order from
1-based position 1. -/
def validate_step_list (steps : List Step) (path : String) :
    Except String Unit :=
  validate_steps_from steps path 1

-- ── Specification-side traversal for step validation ────────────────

mutual

/-- All structural violations in a step list, collected depth-first and
left-to-right, each with its accumulated 1-based path label. -/
def step_violations : List Step → String → Nat → List String
  | [], _, _ => []
  | s :: rest, path, i =>
    step_violations_one s path i ++ step_violations rest path (i + 1)

/-- Violations of a single step: blank invoke/invoke-and-prove action
names, blank branch justification, empty branch step list, then the
branch's nested violations under the extended path label. -/
def step_violations_one : Step → String → Nat → List String
  | .call c, path, pos =>
    if is_blank c.action then
      [path ++ " " ++ toString pos ++ ": " ++ actionNonEmptyMsg] else []
  | .must m, path, pos =>
    if is_blank m.action then
      [path ++ " " ++ toString pos ++ ": " ++ actionNonEmptyMsg] else []
  | .maybe (.mk because ds), path, pos =>
    (if is_blank because then [maybeBecauseMsg path pos] else []) ++
    (if ds.isEmpty then [maybeDoEmptyMsg path pos] else []) ++
    step_violations ds (nestedPath path pos) 1

end

/-- The first violation of a depth-first traversal, as an `Except`. -/
def first_violation : List String → Except String Unit
  | [] => .ok ()
  | v :: _ => .error v

theorem first_violation_append (a b : List String) :
    first_violation (a ++ b) =
      match first_violation a with
      | .ok () => first_violation b
      | .error e => .error e := by
  cases a <;> rfl

mutual

theorem validate_steps_from_eq :
    ∀ (steps : List Step) (path : String) (i : Nat),
      validate_steps_from steps path i =
        first_violation (step_violations steps path i)
  | [], _, _ => rfl
  | s :: rest, path, i => by
      simp only [validate_steps_from, step_violations, first_violation_append]
      rw [validate_step_eq s path i]
      cases hv : first_violation (step_violations_one s path i) with
      | error e => rfl
      | ok u => cases u; exact validate_steps_from_eq rest path (i + 1)

theorem validate_step_eq :
    ∀ (s : Step) (path : String) (pos : Nat),
      validate_step s path pos =
        first_violation (step_violations_one s path pos)
  | .call c, path, pos => by
      simp only [validate_step, validate_action_call, step_violations_one]
      cases hb : is_blank c.action <;> simp [first_violation]
  | .must m, path, pos => by
      simp only [validate_step, validate_action_call, step_violations_one]
      cases hb : is_blank m.action <;> simp [first_violation]
  | .maybe (.mk because ds), path, pos => by
      simp only [validate_step, validate_maybe_block, step_violations_one]
      by_cases hb : is_blank because = true
      · simp [hb, first_violation]
      · simp only [Bool.not_eq_true] at hb
        simp only [hb, Bool.false_eq_true, if_false, List.nil_append]
        by_cases hd : ds.isEmpty = true
        · cases ds with
          | nil => simp [first_violation, step_violations]
          | cons a as => simp at hd
        · simp only [Bool.not_eq_true] at hd
          simp only [hd, Bool.false_eq_true, if_false, List.nil_append]
          exact validate_steps_from_eq ds (nestedPath path pos) 1

end

-- ── Document types (types.rs) ───────────────────────────────────────

/-- The `Assumption` from `types.rs`. -/
structure Assumption where
  expr : String
  because : String
deriving Repr

/-- The `Assertion` from `types.rs` (`assert` is renamed `assert_expr`). -/
structure Assertion where
  assert_expr : String
  because : String
deriving Repr

/-- The `WitnessCheck` from `types.rs`. -/
structure WitnessCheck where
  cover : String
  because : String
deriving Repr

/-- The `LetBinding` from `types.rs`: `call` or `must`, each wrapping an
`ActionCall` (the one-field serde wrappers `LetCall`/`LetMust` are
flattened into the constructor payloads). -/
inductive LetBinding where
  | call (call : ActionCall)
  | must (must : ActionCall)
deriving Repr

/-- The `KaniExpectation` from `types.rs`. -/
inductive KaniExpectation where
  | Success | Failure | Unreachable | Undetermined
deriving DecidableEq, Repr

/-- The `KaniEvidence` from `types.rs`: `unwind: u32`, expected outcome,
vacuity flag (serde default `false`), optional vacuity justification. -/
structure KaniEvidence where
  unwind : Nat
  expect : KaniExpectation
  allow_vacuous : Bool
  vacuity_because : Option String
deriving Repr

/-- The `Evidence` from `types.rs`. -/
structure Evidence where
  kani : Option KaniEvidence
  verus : Option TheoremValue
  stateright : Option TheoremValue
deriving Repr

/-- The `Evidence::has_any_backend`. -/
def Evidence.has_any_backend (e : Evidence) : Bool :=
  e.kani.isSome || e.verus.isSome || e.stateright.isSome

/-- The `TheoremDoc` from `types.rs`.  The Rust field `theorem` is named
`theorem_name` here (`theorem` is a Lean keyword); `IndexMap` fields
are ordered association lists. -/
structure TheoremDoc where
  schema : Option Nat
  theorem_name : TheoremName
  about : String
  tags : List String
  given : List String
  forall_vars : List (ForallVar × String)
  assume : List Assumption
  witness : List WitnessCheck
  let_bindings : List (String × LetBinding)
  do_steps : List Step
  prove : List Assertion
  evidence : Evidence

-- ── Semantic validation (validate.rs) ───────────────────────────────

/-- The `fail` from `validate.rs`: wraps a reason with the theorem name
(`doc.theorem.to_string()`). -/
def fail (doc : TheoremDoc) (reason : String) : SchemaError :=
  .ValidationFailed doc.theorem_name.val reason

/-- The non-blank-field reason built by `require_non_blank_fields`. -/
def nonBlankFieldMsg (sectionName : String) (pos : Nat) (label : String) : String :=
  sectionName ++ " " ++ toString pos ++ ": " ++ label ++ " must be " ++
  "non-empty after trimming"

/-- The `require_non_blank_fields` from `validate.rs`: first blank labelled
field wins. -/
def require_non_blank_fields (doc : TheoremDoc) (sectionName : String)
    (pos : Nat) : List (String × String) → Except SchemaError Unit
  | [] => .ok ()
  | (label, value) :: rest =>
    if is_blank value then
      .error (fail doc (nonBlankFieldMsg sectionName pos label))
    else require_non_blank_fields doc sectionName pos rest

/-- The enumerated loop of `validate_collection_fields`, carrying the
1-based position of the next item. -/
def validate_collection_from {T : Type} (doc : TheoremDoc)
    (sectionName : String) (extract_fields : T → List (String × String)) :
    List T → Nat → Except SchemaError Unit
  | [], _ => .ok ()
  | item :: rest, i =>
    match require_non_blank_fields doc sectionName i (extract_fields item) with
    | .error e => .error e
    | .ok () => validate_collection_from doc sectionName extract_fields rest (i + 1)

/-- The `validate_collection_fields` from `validate.rs`. -/
def validate_collection_fields {T : Type} (doc : TheoremDoc)
    (sectionName : String) (items : List T)
    (extract_fields : T → List (String × String)) : Except SchemaError Unit :=
  validate_collection_from doc sectionName extract_fields items 1

/-- The `About` blank reason. -/
def aboutMsg : String := "About must be non-empty after trimming"

/-- The `validate_about` from `validate.rs`. -/
def validate_about (doc : TheoremDoc) : Except SchemaError Unit :=
  if is_blank doc.about then .error (fail doc aboutMsg) else .ok ()

/-- The empty-`Prove` reason (`concat!` in the source). -/
def proveEmptyMsg : String :=
  "Prove section must contain at least one " ++ "assertion"

/-- The `validate_prove_non_empty` from `validate.rs`. -/
def validate_prove_non_empty (doc : TheoremDoc) : Except SchemaError Unit :=
  if doc.prove.isEmpty then .error (fail doc proveEmptyMsg) else .ok ()

/-- The `validate_assertions` from `validate.rs`. -/
def validate_assertions (doc : TheoremDoc) : Except SchemaError Unit :=
  validate_collection_fields doc "Prove assertion" doc.prove
    (fun a => [("assert", a.assert_expr), ("because", a.because)])

/-- The `validate_assumptions` from `validate.rs`. -/
def validate_assumptions (doc : TheoremDoc) : Except SchemaError Unit :=
  validate_collection_fields doc "Assume constraint" doc.assume
    (fun a => [("expr", a.expr), ("because", a.because)])

/-- The `validate_witnesses` from `validate.rs`. -/
def validate_witnesses (doc : TheoremDoc) : Except SchemaError Unit :=
  validate_collection_fields doc "Witness" doc.witness
    (fun w => [("cover", w.cover), ("because", w.because)])

/-- The `Assume` expression loop of `validate_expressions`. -/
def validate_assume_exprs (parse : String → Except String SynExpr)
    (doc : TheoremDoc) : List Assumption → Nat → Except SchemaError Unit
  | [], _ => .ok ()
  | a :: rest, i =>
    match validate_rust_expr parse (strTrim a.expr) with
    | .error reason =>
      .error (fail doc ("Assume constraint " ++ toString i ++ ": expr " ++ reason))
    | .ok () => validate_assume_exprs parse doc rest (i + 1)

/-- The `Prove` expression loop of `validate_expressions`. -/
def validate_prove_exprs (parse : String → Except String SynExpr)
    (doc : TheoremDoc) : List Assertion → Nat → Except SchemaError Unit
  | [], _ => .ok ()
  | a :: rest, i =>
    match validate_rust_expr parse (strTrim a.assert_expr) with
    | .error reason =>
      .error (fail doc ("Prove assertion " ++ toString i ++ ": assert " ++ reason))
    | .ok () => validate_prove_exprs parse doc rest (i + 1)

/-- The `Witness` expression loop of `validate_expressions`. -/
def validate_witness_exprs (parse : String → Except String SynExpr)
    (doc : TheoremDoc) : List WitnessCheck → Nat → Except SchemaError Unit
  | [], _ => .ok ()
  | w :: rest, i =>
    match validate_rust_expr parse (strTrim w.cover) with
    | .error reason =>
      .error (fail doc ("Witness " ++ toString i ++ ": cover " ++ reason))
    | .ok () => validate_witness_exprs parse doc rest (i + 1)

/-- The `validate_expressions` from `validate.rs`, parameterized by the
external expression parser. -/
def validate_expressions (parse : String → Except String SynExpr)
    (doc : TheoremDoc) : Except SchemaError Unit := do
  validate_assume_exprs parse doc doc.assume 1
  validate_prove_exprs parse doc doc.prove 1
  validate_witness_exprs parse doc doc.witness 1

/-- An apostrophe, used in the `Let` binding message. -/
def squote : String := String.singleton (Char.ofNat 39)

/-- The `Let` binding error wrapper text. -/
def letBindingMsg (name r : String) : String :=
  "Let binding " ++ squote ++ name ++ squote ++ ": " ++ r

/-- The loop of `validate_let_bindings`. -/
def validate_let_from (doc : TheoremDoc) :
    List (String × LetBinding) → Except SchemaError Unit
  | [] => .ok ()
  | (name, binding) :: rest =>
    let ac := match binding with
      | .call c => c
      | .must m => m
    match validate_action_call ac with
    | .error r => .error (fail doc (letBindingMsg name r))
    | .ok () => validate_let_from doc rest

/-- The `validate_let_bindings` from `validate.rs`. -/
def validate_let_bindings (doc : TheoremDoc) : Except SchemaError Unit :=
  validate_let_from doc doc.let_bindings

/-- The `validate_do_steps` from `validate.rs`. -/
def validate_do_steps (doc : TheoremDoc) : Except SchemaError Unit :=
  match validate_step_list doc.do_steps "Do step" with
  | .error r => .error (fail doc r)
  | .ok () => .ok ()

/-- The no-backend reason (`concat!` in the source). -/
def evidenceNoBackendMsg : String :=
  "Evidence section must specify at least one " ++
  "backend (kani, verus, or stateright)"

/-- The non-positive unwind reason (`concat!` in the source). -/
def unwindMsg : String :=
  "Evidence.kani.unwind must be a positive " ++ "integer (> 0)"

/-- The `validate_kani_unwind` from `validate.rs`. -/
def validate_kani_unwind (doc : TheoremDoc) (kani : KaniEvidence) :
    Except SchemaError Unit :=
  if kani.unwind == 0 then .error (fail doc unwindMsg) else .ok ()

/-- The missing-vacuity-justification reason (`concat!` in the source). -/
def vacuityRequiredMsg : String :=
  "vacuity_because is required when " ++ "allow_vacuous is true"

/-- The blank-vacuity-justification reason (`concat!` in the source). -/
def vacuityBlankMsg : String :=
  "Evidence.kani.vacuity_because must be " ++ "non-empty after trimming"

/-- The `validate_kani_vacuity` from `validate.rs`: a required-but-missing
justification is reported first, then a present-but-blank one. -/
def validate_kani_vacuity (doc : TheoremDoc) (kani : KaniEvidence) :
    Except SchemaError Unit :=
  let requires_reason := kani.allow_vacuous
  let has_reason := kani.vacuity_because.isSome
  let reason_is_blank :=
    match kani.vacuity_because with
    | some s => is_blank s
    | none => false
  if requires_reason && !has_reason then
    .error (fail doc vacuityRequiredMsg)
  else if has_reason && reason_is_blank then
    .error (fail doc vacuityBlankMsg)
  else .ok ()

/-- The empty-witness-list reason (`concat!` in the source). -/
def witnessRequiredMsg : String :=
  "Witness section must contain at least one " ++
  "witness when allow_vacuous is false " ++ "(the default)"

/-- The `validate_kani_witnesses` from `validate.rs`. -/
def validate_kani_witnesses (doc : TheoremDoc) (kani : KaniEvidence) :
    Except SchemaError Unit :=
  if !kani.allow_vacuous && doc.witness.isEmpty then
    .error (fail doc witnessRequiredMsg)
  else .ok ()

/-- The `validate_evidence` from `validate.rs`: backend presence first;
when the Kani backend is present, its unwind bound, vacuity policy,
and witness requirement are checked in that order. -/
def validate_evidence (doc : TheoremDoc) : Except SchemaError Unit :=
  if !(doc.evidence.has_any_backend) then
    .error (fail doc evidenceNoBackendMsg)
  else
    match doc.evidence.kani with
    | some kani => do
      validate_kani_unwind doc kani
      validate_kani_vacuity doc kani
      validate_kani_witnesses doc kani
    | none => .ok ()

/-- The `validate_theorem_doc` from `validate.rs`: the ordered battery of
post-deserialization checks, short-circuiting on the first failure. -/
def validate_theorem_doc (parse : String → Except String SynExpr)
    (doc : TheoremDoc) : Except SchemaError Unit := do
  validate_about doc
  validate_prove_non_empty doc
  validate_assertions doc
  validate_assumptions doc
  validate_witnesses doc
  validate_expressions parse doc
  validate_let_bindings doc
  validate_do_steps doc
  validate_evidence doc

-- ── The validation battery as an ordered rule list ──────────────────

/-- The first failing check of an ordered rule list (`.ok ()` when all
pass). -/
def first_error : List (Except SchemaError Unit) → Except SchemaError Unit
  | [] => .ok ()
  | .ok () :: rest => first_error rest
  | .error e :: _ => .error e

/-- Rule: at least one evidence backend. -/
def backend_rule (doc : TheoremDoc) : Except SchemaError Unit :=
  if !(doc.evidence.has_any_backend) then
    .error (fail doc evidenceNoBackendMsg)
  else .ok ()

/-- Rule: positive Kani unwind bound (vacuous when Kani is absent). -/
def kani_unwind_rule (doc : TheoremDoc) : Except SchemaError Unit :=
  match doc.evidence.kani with
  | some kani => validate_kani_unwind doc kani
  | none => .ok ()

/-- Rule: Kani vacuity-justification requirements (vacuous when Kani is
absent). -/
def kani_vacuity_rule (doc : TheoremDoc) : Except SchemaError Unit :=
  match doc.evidence.kani with
  | some kani => validate_kani_vacuity doc kani
  | none => .ok ()

/-- Rule: non-empty witness list when vacuity is not permitted (vacuous
when Kani is absent). -/
def kani_witness_rule (doc : TheoremDoc) : Except SchemaError Unit :=
  match doc.evidence.kani with
  | some kani => validate_kani_witnesses doc kani
  | none => .ok ()

/-- The ordered rule list actually applied by `validate_theorem_doc`:
description, obligation non-emptiness, the three non-blank-field
sections, expression classification, let bindings, steps, backend
presence, and, for the Kani backend, unwind, the vacuity-justification
requirements, and the witness requirement — in that order. -/
def rule_checks (parse : String → Except String SynExpr)
    (doc : TheoremDoc) : List (Except SchemaError Unit) :=
  [validate_about doc,
   validate_prove_non_empty doc,
   validate_assertions doc,
   validate_assumptions doc,
   validate_witnesses doc,
   validate_expressions parse doc,
   validate_let_bindings doc,
   validate_do_steps doc,
   backend_rule doc,
   kani_unwind_rule doc,
   kani_vacuity_rule doc,
   kani_witness_rule doc]

theorem validate_evidence_eq (doc : TheoremDoc) :
    validate_evidence doc =
      first_error [backend_rule doc, kani_unwind_rule doc,
        kani_vacuity_rule doc, kani_witness_rule doc] := by
  unfold validate_evidence backend_rule kani_unwind_rule
    kani_vacuity_rule kani_witness_rule
  cases hb : doc.evidence.has_any_backend with
  | false => simp [first_error]
  | true =>
    simp only [Bool.not_true, Bool.false_eq_true, if_false, first_error]
    cases hk : doc.evidence.kani with
    | none => simp [first_error]
    | some kani =>
      simp only [first_error]
      cases h1 : validate_kani_unwind doc kani with
      | error e => simp [bind, Except.bind, first_error]
      | ok u =>
        cases u
        simp only [bind, Except.bind, first_error]
        cases h2 : validate_kani_vacuity doc kani with
        | error e => simp [first_error]
        | ok u =>
          cases u
          simp only [first_error]
          cases h3 : validate_kani_witnesses doc kani with
          | error e => simp [first_error]
          | ok u => cases u; simp [first_error]

theorem validate_theorem_doc_eq (parse : String → Except String SynExpr)
    (doc : TheoremDoc) :
    validate_theorem_doc parse doc = first_error (rule_checks parse doc) := by
  unfold validate_theorem_doc rule_checks
  cases h1 : validate_about doc with
  | error e => simp [bind, Except.bind, first_error]
  | ok u =>
  cases u
  simp only [bind, Except.bind, first_error]
  cases h2 : validate_prove_non_empty doc with
  | error e => simp [first_error]
  | ok u =>
  cases u
  simp only [first_error]
  cases h3 : validate_assertions doc with
  | error e => simp [first_error]
  | ok u =>
  cases u
  simp only [first_error]
  cases h4 : validate_assumptions doc with
  | error e => simp [first_error]
  | ok u =>
  cases u
  simp only [first_error]
  cases h5 : validate_witnesses doc with
  | error e => simp [first_error]
  | ok u =>
  cases u
  simp only [first_error]
  cases h6 : validate_expressions parse doc with
  | error e => simp [first_error]
  | ok u =>
  cases u
  simp only [first_error]
  cases h7 : validate_let_bindings doc with
  | error e => simp [first_error]
  | ok u =>
  cases u
  simp only [first_error]
  cases h8 : validate_do_steps doc with
  | error e => simp [first_error]
  | ok u =>
  cases u
  simp only [first_error]
  exact validate_evidence_eq doc

-- ── Raw document model (raw.rs) ─────────────────────────────────────

/-- The `RawAssumption` from `raw.rs`. -/
structure RawAssumption where
  expr : Spanned String
  because : Spanned String

/-- The `RawAssertion` from `raw.rs`. -/
structure RawAssertion where
  assert_expr : Spanned String
  because : Spanned String

/-- The `RawWitnessCheck` from `raw.rs`. -/
structure RawWitnessCheck where
  cover : Spanned String
  because : Spanned String

/-- The `RawKaniEvidence` from `raw.rs`. -/
structure RawKaniEvidence where
  unwind : Spanned Nat
  expect : KaniExpectation
  allow_vacuous : Option (Spanned Bool)
  vacuity_because : Option (Spanned String)

/-- The `RawEvidence` from `raw.rs`. -/
structure RawEvidence where
  kani : Option RawKaniEvidence
  verus : Option TheoremValue
  stateright : Option TheoremValue

/-- The `RawTheoremDoc` from `raw.rs`: the span-carrying shape mirroring
`TheoremDoc`. -/
structure RawTheoremDoc where
  schema : Option Nat
  theorem_name : Spanned TheoremName
  about : Spanned String
  tags : List String
  given : List String
  forall_vars : List (ForallVar × String)
  assume : List RawAssumption
  witness : List RawWitnessCheck
  let_bindings : List (String × LetBinding)
  do_steps : List Step
  prove : List RawAssertion
  evidence : RawEvidence

/-- The `RawKaniEvidence::to_kani_evidence`: spans stripped, the vacuity
flag defaulting to `false` when absent (`is_some_and`). -/
def RawKaniEvidence.to_kani_evidence (r : RawKaniEvidence) : KaniEvidence :=
  { unwind := r.unwind.value
    expect := r.expect
    allow_vacuous :=
      match r.allow_vacuous with
      | some a => a.value
      | none => false
    vacuity_because := r.vacuity_because.map (fun v => v.value) }

/-- The `RawEvidence::to_evidence`. -/
def RawEvidence.to_evidence (r : RawEvidence) : Evidence :=
  { kani := r.kani.map RawKaniEvidence.to_kani_evidence
    verus := r.verus
    stateright := r.stateright }

/-- The `RawTheoremDoc::to_theorem_doc`: the public document with every
span stripped and every list and mapping carried over in order. -/
def RawTheoremDoc.to_theorem_doc (r : RawTheoremDoc) : TheoremDoc :=
  { schema := r.schema
    theorem_name := r.theorem_name.value
    about := r.about.value
    tags := r.tags
    given := r.given
    forall_vars := r.forall_vars
    assume := r.assume.map (fun a =>
      { expr := a.expr.value, because := a.because.value })
    witness := r.witness.map (fun w =>
      { cover := w.cover.value, because := w.because.value })
    let_bindings := r.let_bindings
    do_steps := r.do_steps
    prove := r.prove.map (fun p =>
      { assert_expr := p.assert_expr.value, because := p.because.value })
    evidence := r.evidence.to_evidence }

/-- The `RawTheoremDoc::theorem_location`: the document-level fallback. -/
def RawTheoremDoc.theorem_location (r : RawTheoremDoc) : Location :=
  r.theorem_name.referenced

-- ── Diagnostic location recovery (raw.rs) ───────────────────────────

/-- The `str::strip_prefix`. -/
def stripPre (pre s : String) : Option String :=
  if pre.data.isPrefixOf s.data then some ⟨s.data.drop pre.data.length⟩
  else none

/-- The `str::contains` for a pattern string. -/
def strContains (s pat : String) : Bool :=
  (List.range (s.data.length + 1)).any
    (fun i => pat.data.isPrefixOf (s.data.drop i))

/-- The first component of `str::split_once`, requiring the separator
to occur. -/
def splitOnceBefore (s : String) (c : Char) : Option String :=
  if s.data.contains c then
    some ⟨s.data.takeWhile (fun d => !(d == c))⟩
  else none

/-- Digit-string parsing: `none` unless non-empty and all ASCII digits. -/
def strToNatList (l : List Char) : Option Nat :=
  if l ≠ [] ∧ l.all Char.isDigit then
    some (l.foldl (fun acc c => acc * 10 + (c.toNat - 48)) 0)
  else none

/-- The `str::parse::<usize>`: an optional leading plus sign followed by
one or more ASCII digits. -/
def parse_usize (s : String) : Option Nat :=
  match s.data with
  | '+' :: rest => strToNatList rest
  | l => strToNatList l

/-- The `indexed_error_position` from `raw.rs`: strips the message prefix,
takes the digits before the first colon, parses the 1-based position
and converts it to a 0-based index (`checked_sub(1)`). -/
def indexed_error_position (reason pre : String) : Option Nat :=
  match stripPre pre reason with
  | none => none
  | some tail =>
    match splitOnceBefore tail ':' with
    | none => none
    | some raw_index =>
      match parse_usize (strTrim raw_index) with
      | none => none
      | some parsed => if parsed = 0 then none else some (parsed - 1)

/-- The `RawTheoremDoc::prove_field_location`. -/
def RawTheoremDoc.prove_field_location (r : RawTheoremDoc)
    (reason : String) : Option Location :=
  match indexed_error_position reason "Prove assertion " with
  | none => none
  | some index =>
    match r.prove.get? index with
    | none => none
    | some p =>
      if strContains reason ": because " then some p.because.referenced
      else some p.assert_expr.referenced

/-- The `RawTheoremDoc::assume_field_location`. -/
def RawTheoremDoc.assume_field_location (r : RawTheoremDoc)
    (reason : String) : Option Location :=
  match indexed_error_position reason "Assume constraint " with
  | none => none
  | some index =>
    match r.assume.get? index with
    | none => none
    | some a =>
      if strContains reason ": because " then some a.because.referenced
      else some a.expr.referenced

/-- The `RawTheoremDoc::witness_field_location`. -/
def RawTheoremDoc.witness_field_location (r : RawTheoremDoc)
    (reason : String) : Option Location :=
  match indexed_error_position reason "Witness " with
  | none => none
  | some index =>
    match r.witness.get? index with
    | none => none
    | some w =>
      if strContains reason ": because " then some w.because.referenced
      else some w.cover.referenced

/-- The `RawTheoremDoc::kani_field_location`. -/
def RawTheoremDoc.kani_field_location (r : RawTheoremDoc)
    (reason : String) : Option Location :=
  match r.evidence.kani with
  | none => none
  | some kani =>
    if strStarts "Evidence.kani.unwind" reason then
      some kani.unwind.referenced
    else if strStarts "vacuity_because is required when allow_vacuous is true" reason then
      match kani.allow_vacuous with
      | some a => some a.referenced
      | none => none
    else if strStarts "Evidence.kani.vacuity_because must be non-empty" reason then
      match kani.vacuity_because with
      | some v => some v.referenced
      | none => none
    else none

/-- The `RawTheoremDoc::location_for_reason`: the about matcher, then the
three indexed matchers, then the Kani matcher. -/
def RawTheoremDoc.location_for_reason (r : RawTheoremDoc)
    (reason : String) : Option Location :=
  if strStarts "About must be non-empty" reason then
    some r.about.referenced
  else
    match r.prove_field_location reason with
    | some l => some l
    | none =>
      match r.assume_field_location reason with
      | some l => some l
      | none =>
        match r.witness_field_location reason with
        | some l => some l
        | none => r.kani_field_location reason

/-- The `RawTheoremDoc::location_for_validation_reason`: the most specific
match, or the theorem-name location as fallback. -/
def RawTheoremDoc.location_for_validation_reason (r : RawTheoremDoc)
    (reason : String) : Location :=
  match r.location_for_reason reason with
  | some l => l
  | none => r.theorem_location

-- ── Loader (loader.rs) ──────────────────────────────────────────────

/-- The per-document loop of `load_theorem_docs`: empty `Prove` and
missing backends rejected, first failing document wins. -/
def check_docs : List TheoremDoc → Except SchemaError Unit
  | [] => .ok ()
  | doc :: rest =>
    if doc.prove.isEmpty then
      .error (.ValidationFailed doc.theorem_name.val proveEmptyMsg)
    else if doc.evidence.kani.isNone && doc.evidence.verus.isNone &&
        doc.evidence.stateright.isNone then
      .error (.ValidationFailed doc.theorem_name.val evidenceNoBackendMsg)
    else check_docs rest

/-- The `load_theorem_docs` from `loader.rs`, parameterized by the result
of the external multi-document YAML deserialization
(`serde_saphyr::from_multiple`): a parse failure becomes
`SchemaError::Deserialize`; otherwise each document is checked in
order and the full list is returned unchanged. -/
def load_theorem_docs (parsed : Except String (List TheoremDoc)) :
    Except SchemaError (List TheoremDoc) :=
  match parsed with
  | .error e => .error (.Deserialize e)
  | .ok docs =>
    match check_docs docs with
    | .error e => .error e
    | .ok () => .ok docs

-- ── Identifier validation: helper lemmas ────────────────────────────

theorem data_eq_nil_iff (s : String) : s.data = [] ↔ s = "" := by
  constructor
  · intro h
    rcases s with ⟨d⟩
    subst h
    rfl
  · intro h; subst h; rfl

theorem is_rust_keyword_iff (s : String) :
    is_rust_keyword s = true ↔ s ∈ RUST_KEYWORDS := by
  simp [is_rust_keyword, List.contains, List.elem_iff]

theorem matches_pattern_ne_empty {s : String} (h : MatchesIdentPattern s) :
    s ≠ "" := by
  intro heq
  subst heq
  exact h.1 rfl

theorem validate_identifier_ok_iff (s : String) :
    validate_identifier s = .ok () ↔
      (s ≠ "" ∧ MatchesIdentPattern s ∧ s ∉ RUST_KEYWORDS) := by
  unfold validate_identifier
  by_cases he : s = ""
  · subst he
    simp only [show ("" : String).data.isEmpty = true from rfl, if_true]
    constructor
    · intro h; cases h
    · rintro ⟨hne, _, _⟩; exact absurd rfl hne
  · have hdata : s.data.isEmpty = false := by
      rw [List.isEmpty_eq_false_iff_exists_mem]
      rcases s with ⟨d⟩
      cases d with
      | nil => exact absurd rfl he
      | cons c cs => exact ⟨c, by simp⟩
    simp only [hdata, Bool.false_eq_true, if_false]
    by_cases hp : is_valid_identifier_pattern s = true
    · simp only [hp, Bool.not_true, Bool.false_eq_true, if_false]
      by_cases hk : is_rust_keyword s = true
      · simp only [hk, if_true]
        constructor
        · intro h; cases h
        · rintro ⟨_, _, hnk⟩; exact absurd (is_rust_keyword_iff s |>.mp hk) hnk
      · have hk2 : is_rust_keyword s = false := by
          rw [← Bool.not_eq_true]; exact hk
        simp only [hk2, Bool.false_eq_true, if_false]
        constructor
        · intro _
          exact ⟨he, (is_valid_identifier_pattern_iff s).mp hp,
            fun hin => hk ((is_rust_keyword_iff s).mpr hin)⟩
        · intro _; trivial
    · have hp2 : is_valid_identifier_pattern s = false := by
        rw [← Bool.not_eq_true]; exact hp
      simp only [hp2, Bool.not_false, if_true]
      constructor
      · intro h; cases h
      · rintro ⟨_, hm, _⟩
        exact absurd ((is_valid_identifier_pattern_iff s).mpr hm) hp

theorem validate_identifier_empty_err :
    validate_identifier "" = .error (.InvalidIdentifier "" emptyIdentReason) :=
  rfl

theorem validate_identifier_pattern_err {s : String} (hne : s ≠ "")
    (hnp : ¬ MatchesIdentPattern s) :
    validate_identifier s = .error (.InvalidIdentifier s patternReason) := by
  unfold validate_identifier
  have hdata : s.data.isEmpty = false := by
    rw [List.isEmpty_eq_false_iff_exists_mem]
    rcases s with ⟨d⟩
    cases d with
    | nil => exact absurd rfl hne
    | cons c cs => exact ⟨c, by simp⟩
  have hp2 : is_valid_identifier_pattern s = false := by
    rw [← Bool.not_eq_true]
    intro hp
    exact hnp ((is_valid_identifier_pattern_iff s).mp hp)
  simp [hdata, hp2]

theorem validate_identifier_keyword_err {s : String}
    (hm : MatchesIdentPattern s) (hin : s ∈ RUST_KEYWORDS) :
    validate_identifier s = .error (.InvalidIdentifier s keywordReason) := by
  unfold validate_identifier
  have hdata : s.data.isEmpty = false := by
    rw [List.isEmpty_eq_false_iff_exists_mem]
    rcases s with ⟨d⟩
    cases d with
    | nil => exact absurd rfl (matches_pattern_ne_empty hm)
    | cons c cs => exact ⟨c, by simp⟩
  have hp : is_valid_identifier_pattern s = true :=
    (is_valid_identifier_pattern_iff s).mpr hm
  have hk : is_rust_keyword s = true := (is_rust_keyword_iff s).mpr hin
  simp [hdata, hp, hk]

-- ── Claim C5 ────────────────────────────────────────────────────────

/-- C5: `validate_identifier` accepts a string exactly when it is
non-empty, matches `^[A-Za-z_][A-Za-z0-9_]*$`, and is absent from the
fixed reserved-word table; the empty string is rejected with the
"must not be empty" reason, a pattern mismatch with the reason naming
the allowed character class, and a pattern-valid reserved word with
the reserved-word reason. -/
theorem c5_identifier_validator (s : String) :
    (validate_identifier s = .ok () ↔
      (s ≠ "" ∧ MatchesIdentPattern s ∧ s ∉ RUST_KEYWORDS)) ∧
    (s = "" →
      validate_identifier s = .error (.InvalidIdentifier s emptyIdentReason)) ∧
    (s ≠ "" → ¬ MatchesIdentPattern s →
      validate_identifier s = .error (.InvalidIdentifier s patternReason)) ∧
    (MatchesIdentPattern s → s ∈ RUST_KEYWORDS →
      validate_identifier s = .error (.InvalidIdentifier s keywordReason)) := by
  refine ⟨validate_identifier_ok_iff s, ?_, ?_, ?_⟩
  · intro h; subst h; exact validate_identifier_empty_err
  · intro hne hnp; exact validate_identifier_pattern_err hne hnp
  · intro hm hin; exact validate_identifier_keyword_err hm hin

/-- Witness for C5 at concrete inputs: the empty string, a string
starting with a digit, a reserved word, and a legal identifier. -/
theorem c5_identifier_validator_witness :
    validate_identifier "" = .error (.InvalidIdentifier "" emptyIdentReason) ∧
    validate_identifier "123abc" =
      .error (.InvalidIdentifier "123abc" patternReason) ∧
    validate_identifier "fn" = .error (.InvalidIdentifier "fn" keywordReason) ∧
    validate_identifier "My_Theorem_42" = .ok () :=
  ⟨(c5_identifier_validator "").2.1 rfl,
   (c5_identifier_validator "123abc").2.2.1 (by decide) (by decide),
   (c5_identifier_validator "fn").2.2.2 (by decide) (by decide),
   (c5_identifier_validator "My_Theorem_42").1.mpr
     ⟨by decide, by decide, by decide⟩⟩

-- ── Claim C6 ────────────────────────────────────────────────────────

/-- C6: every `TheoremName` and `ForallVar` obtained from the only
constructors (`new` or deserialization) contains a string matching
`^[A-Za-z_][A-Za-z0-9_]*$` that is not in the reserved-word table; the
values are immutable, so the invariant holds for their lifetime. -/
theorem c6_newtype_invariant :
    (∀ s t, TheoremName.new s = .ok t →
      MatchesIdentPattern t.val ∧ t.val ∉ RUST_KEYWORDS) ∧
    (∀ s t, TheoremName.deserializeFrom s = .ok t →
      MatchesIdentPattern t.val ∧ t.val ∉ RUST_KEYWORDS) ∧
    (∀ s t, ForallVar.new s = .ok t →
      MatchesIdentPattern t.val ∧ t.val ∉ RUST_KEYWORDS) ∧
    (∀ s t, ForallVar.deserializeFrom s = .ok t →
      MatchesIdentPattern t.val ∧ t.val ∉ RUST_KEYWORDS) := by
  have key : ∀ s : String, validate_identifier s = .ok () →
      MatchesIdentPattern s ∧ s ∉ RUST_KEYWORDS := by
    intro s h
    have := (validate_identifier_ok_iff s).mp h
    exact ⟨this.2.1, this.2.2⟩
  refine ⟨?_, ?_, ?_, ?_⟩
  · intro s t h
    unfold TheoremName.new at h
    cases hv : validate_identifier s with
    | error e => rw [hv] at h; cases h
    | ok u =>
      cases u
      rw [hv] at h
      cases h
      exact key s hv
  · intro s t h
    unfold TheoremName.deserializeFrom at h
    cases hv : validate_identifier s with
    | error e => rw [hv] at h; cases h
    | ok u =>
      cases u
      rw [hv] at h
      cases h
      exact key s hv
  · intro s t h
    unfold ForallVar.new at h
    cases hv : validate_identifier s with
    | error e => rw [hv] at h; cases h
    | ok u =>
      cases u
      rw [hv] at h
      cases h
      exact key s hv
  · intro s t h
    unfold ForallVar.deserializeFrom at h
    cases hv : validate_identifier s with
    | error e => rw [hv] at h; cases h
    | ok u =>
      cases u
      rw [hv] at h
      cases h
      exact key s hv

/-- Witness for C6: concrete constructions. -/
theorem c6_newtype_invariant_witness :
    (MatchesIdentPattern (TheoremName.mk "MyTheorem").val ∧
      (TheoremName.mk "MyTheorem").val ∉ RUST_KEYWORDS) ∧
    (MatchesIdentPattern (ForallVar.mk "amount").val ∧
      (ForallVar.mk "amount").val ∉ RUST_KEYWORDS) :=
  ⟨c6_newtype_invariant.1 "MyTheorem" ⟨"MyTheorem"⟩ (by decide),
   c6_newtype_invariant.2.2.1 "amount" ⟨"amount"⟩ (by decide)⟩

-- ── Claim C10 ───────────────────────────────────────────────────────

/-- C10: the single-character string `"_"` passes identifier
validation — it matches the first-character class, the continuation
check is vacuous, and `_` is not in the reserved-word table — so it is
accepted as a theorem name and as a quantified-variable name. -/
theorem c10_underscore_identifier :
    validate_identifier "_" = .ok () ∧
    TheoremName.new "_" = .ok ⟨"_"⟩ ∧
    ForallVar.new "_" = .ok ⟨"_"⟩ ∧
    MatchesIdentPattern "_" ∧ "_" ∉ RUST_KEYWORDS := by
  refine ⟨by decide, by decide, by decide, by decide, by decide⟩

-- ── Claim C4 ────────────────────────────────────────────────────────

/-- C4 (as corrected): `validate_rust_expr` returns `Ok` exactly when
the string parses as a single expression that is not a statement-like
form (the classifier matches the specification's rejected-form list
exactly, see `is_statement_like_iff`); a statement-like parse is
rejected with the fixed single-expression reason; and a parse failure
yields the reason `"is not a valid Rust expression: <parser detail>"`,
which is not prefixed by the offending input text. -/
theorem c4_expr_classifier (parse : String → Except String SynExpr)
    (input : String) :
    (validate_rust_expr parse input = .ok () ↔
      ∃ e, parse input = .ok e ∧ ¬ StatementForm e) ∧
    (∀ e, parse input = .ok e → StatementForm e →
      validate_rust_expr parse input = .error statementLikeReason) ∧
    (∀ d, parse input = .error d →
      validate_rust_expr parse input = .error (notValidExprText ++ d)) := by
  unfold validate_rust_expr
  cases hp : parse input with
  | error d =>
    refine ⟨?_, ?_, ?_⟩
    · constructor
      · intro h; cases h
      · rintro ⟨e, he, _⟩; cases he
    · intro e he; cases he
    · intro d2 hd2
      injection hd2 with hd2
      subst hd2
      rfl
  | ok e =>
    refine ⟨?_, ?_, ?_⟩
    · by_cases hs : is_statement_like e = true
      · simp only [hs, if_true]
        constructor
        · intro h; cases h
        · rintro ⟨e2, he2, hnf⟩
          have hee : e2 = e := by
            injection he2 with h
            exact h.symm
          exact absurd ((is_statement_like_iff e).mp hs) (hee ▸ hnf)
      · have hs2 : is_statement_like e = false := by
          rw [← Bool.not_eq_true]; exact hs
        simp only [hs2, Bool.false_eq_true, if_false]
        constructor
        · intro _
          exact ⟨e, rfl, fun hf => hs ((is_statement_like_iff e).mpr hf)⟩
        · intro _; trivial
    · intro e2 he2 hf
      have hee : e2 = e := by
        injection he2 with h
        exact h.symm
      subst hee
      have hs : is_statement_like e2 = true := (is_statement_like_iff e2).mpr hf
      simp [hs]
    · intro d hd; cases hd

/-- Parser stub that always fails, exercising the parse-failure path. -/
def parseFailStub : String → Except String SynExpr :=
  fun _ => .error "expected expression"

/-- Counterexample to C4 as stated: the parse-failure reason does not
begin with the offending input text — the code formats it as
`"is not a valid Rust expression: <detail>"` with no text prefix. -/
theorem c4_counterexample :
    validate_rust_expr parseFailStub "%%" =
      .error "is not a valid Rust expression: expected expression" ∧
    strStarts "%%" "is not a valid Rust expression: expected expression"
      = false := by
  refine ⟨by decide, by decide⟩

/-- Parser stub mapping a few fixed inputs, exercising all paths. -/
def parseStubC4 : String → Except String SynExpr := fun s =>
  if s = "x = 5" then .ok .Assign
  else if s = "if c" then .ok .If
  else .error "unexpected token"

/-- Witness for C4 at concrete inputs: assignment rejected, conditional
accepted, garbage rejected with the parser-detail reason. -/
theorem c4_expr_classifier_witness :
    validate_rust_expr parseStubC4 "x = 5" = .error statementLikeReason ∧
    validate_rust_expr parseStubC4 "if c" = .ok () ∧
    validate_rust_expr parseStubC4 "%%" =
      .error (notValidExprText ++ "unexpected token") :=
  ⟨(c4_expr_classifier parseStubC4 "x = 5").2.1 .Assign (by decide) (by decide),
   (c4_expr_classifier parseStubC4 "if c").1.mpr ⟨.If, by decide, by decide⟩,
   (c4_expr_classifier parseStubC4 "%%").2.2 "unexpected token" (by decide)⟩

-- ── Claim C7 ────────────────────────────────────────────────────────

/-- C7: step validation visits steps depth-first and left-to-right,
requires invoke/invoke-and-prove action names non-blank, branch
justifications non-blank, and branch step lists non-empty, and reports
the first violation in traversal order (`first_violation` of the
depth-first `step_violations` list), with 1-based position labels
accumulated through nesting, e.g. `"Do step 1: maybe.do step 1: …"`. -/
theorem c7_step_validation :
    (∀ (steps : List Step) (path : String),
      validate_step_list steps path =
        first_violation (step_violations steps path 1)) ∧
    validate_step_list
      [Step.maybe (.mk "branch"
        [Step.maybe (.mk "inner" [Step.call ⟨"", [], none⟩])])] "Do step" =
      .error ("Do step 1: maybe.do step 1: maybe.do step 1: " ++
        actionNonEmptyMsg) := by
  refine ⟨?_, by decide⟩
  intro steps path
  exact validate_steps_from_eq steps path 1

-- ── Claim C8 ────────────────────────────────────────────────────────

/-- C8: `TheoremValue` deserialization rejects the null/absent leaf
with the "null not permitted" error (and any tree containing one fails
rather than defaulting), rejects unsigned integers above `i64::MAX`
with the distinct out-of-range error, and constructs all other
scalars, sequences, and mappings exactly, preserving first-seen key
order (`MirrorsValue`). -/
theorem c8_value_deserialization :
    (deserialize_theorem_value .null = .error nullNotPermitted) ∧
    (∀ v, contains_null v = true →
      ∃ e, deserialize_theorem_value v = .error e) ∧
    (∀ n, I64_MAX < n →
      deserialize_theorem_value (.u64 n) = .error (outOfRangeMsg n)) ∧
    (∀ n, n ≤ I64_MAX →
      deserialize_theorem_value (.u64 n) = .ok (.Integer (Int.ofNat n))) ∧
    (∀ v t, MirrorsValue v t → deserialize_theorem_value v = .ok t) := by
  refine ⟨by simp [deserialize_theorem_value], ?_, ?_, ?_, ?_⟩
  · intro v h; exact deser_err_of_null h
  · intro n h
    have h2 : ¬ (n ≤ I64_MAX) := not_le.mpr h
    simp [deserialize_theorem_value, h2]
  · intro n h; simp [deserialize_theorem_value, h]
  · intro v t h; exact deser_of_mirrors h

/-- Witness for C8 at concrete inputs: a nested null, `i64::MAX + 1`,
an in-range unsigned scalar, and a two-entry mapping preserving entry
order. -/
theorem c8_value_deserialization_witness :
    (∃ e, deserialize_theorem_value (.seq [.bool true, .null]) = .error e) ∧
    deserialize_theorem_value (.u64 9223372036854775808) =
      .error (outOfRangeMsg 9223372036854775808) ∧
    deserialize_theorem_value (.u64 7) = .ok (.Integer 7) ∧
    deserialize_theorem_value (.map [("b", .bool true), ("a", .u64 1)]) =
      .ok (.Mapping [("b", .Bool true), ("a", .Integer 1)]) :=
  ⟨c8_value_deserialization.2.1 _ (by decide),
   c8_value_deserialization.2.2.1 _ (by decide),
   c8_value_deserialization.2.2.2.1 7 (by decide),
   c8_value_deserialization.2.2.2.2 _ _
     (.map _ _ (by decide)
       (.cons (.bool true) (.cons (.u64 1 (by decide)) .nil)))⟩

-- ── Claims C2 and C3 ────────────────────────────────────────────────

/-- Parser stub accepting the literal expression string `true`. -/
def parseStub (s : String) : Except String SynExpr :=
  if s = "true" then .ok .Lit else .error "unsupported"

/-- C2 (as corrected): `validate_theorem_doc` reports the error of the
first violated rule in the fixed order given by `rule_checks`:
description non-blank, obligation list non-empty, the non-blank field
checks, expression classification, let-binding paths, steps, backend
presence — and for the primary backend: unwind bound, then the
vacuity-justification requirements, then the witness-list requirement. -/
theorem c2_fail_fast_order (parse : String → Except String SynExpr)
    (doc : TheoremDoc) :
    validate_theorem_doc parse doc = first_error (rule_checks parse doc) :=
  validate_theorem_doc_eq parse doc

/-- A document violating two of the primary-backend rules at once: the
witness list is empty while vacuity is not permitted, and the present
vacuity justification is blank. -/
def c2doc : TheoremDoc :=
  { schema := none
    theorem_name := ⟨"T"⟩
    about := "valid"
    tags := []
    given := []
    forall_vars := []
    assume := []
    witness := []
    let_bindings := []
    do_steps := []
    prove := [⟨"true", "trivially true"⟩]
    evidence := ⟨some ⟨1, .Success, false, some "  "⟩, none, none⟩ }

/-- Counterexample to C2 as stated: on `c2doc` both the
witness-non-empty rule and the blank-vacuity-justification rule are
violated; the claim's rule-8 order (unwind, then witness, then
vacuity) predicts the witness error, but the code reports the
vacuity error. -/
theorem c2_counterexample :
    validate_theorem_doc parseStub c2doc =
      .error (.ValidationFailed "T" vacuityBlankMsg) ∧
    validate_kani_witnesses c2doc ⟨1, .Success, false, some "  "⟩ =
      .error (.ValidationFailed "T" witnessRequiredMsg) ∧
    vacuityBlankMsg ≠ witnessRequiredMsg := by
  refine ⟨by decide, by decide, by decide⟩

/-- C3: for any document satisfying every other validation rule and
configuring the Kani backend, the vacuity policy matrix holds:
(allow_vacuous=false, witness=[]) rejected; (allow_vacuous=false,
witness non-empty) accepted; (allow_vacuous=true, no justification)
rejected; (allow_vacuous=true, blank justification) rejected;
(allow_vacuous=true, non-blank justification) accepted regardless of
the witness list. -/
theorem c3_vacuity_policy_matrix (parse : String → Except String SynExpr)
    (doc : TheoremDoc) (kani : KaniEvidence)
    (hk : doc.evidence.kani = some kani)
    (h1 : validate_about doc = .ok ())
    (h2 : validate_prove_non_empty doc = .ok ())
    (h3 : validate_assertions doc = .ok ())
    (h4 : validate_assumptions doc = .ok ())
    (h5 : validate_witnesses doc = .ok ())
    (h6 : validate_expressions parse doc = .ok ())
    (h7 : validate_let_bindings doc = .ok ())
    (h8 : validate_do_steps doc = .ok ())
    (h9 : kani.unwind ≠ 0) :
    (kani.allow_vacuous = false → kani.vacuity_because = none →
      doc.witness = [] →
      validate_theorem_doc parse doc = .error (fail doc witnessRequiredMsg)) ∧
    (kani.allow_vacuous = false → kani.vacuity_because = none →
      doc.witness ≠ [] →
      validate_theorem_doc parse doc = .ok ()) ∧
    (kani.allow_vacuous = true → kani.vacuity_because = none →
      validate_theorem_doc parse doc = .error (fail doc vacuityRequiredMsg)) ∧
    (kani.allow_vacuous = true → ∀ vb, kani.vacuity_because = some vb →
      is_blank vb = true →
      validate_theorem_doc parse doc = .error (fail doc vacuityBlankMsg)) ∧
    (kani.allow_vacuous = true → ∀ vb, kani.vacuity_because = some vb →
      is_blank vb = false →
      validate_theorem_doc parse doc = .ok ()) := by
  have hbackend : backend_rule doc = .ok () := by
    unfold backend_rule Evidence.has_any_backend
    simp [hk]
  have hunwind : kani_unwind_rule doc = .ok () := by
    unfold kani_unwind_rule
    rw [hk]
    unfold validate_kani_unwind
    simp [h9]
  have main : validate_theorem_doc parse doc =
      first_error [kani_vacuity_rule doc, kani_witness_rule doc] := by
    rw [validate_theorem_doc_eq]
    unfold rule_checks
    rw [h1, h2, h3, h4, h5, h6, h7, h8, hbackend, hunwind]
    simp [first_error]
  refine ⟨?_, ?_, ?_, ?_, ?_⟩
  · intro ha hv hw
    have hvac : kani_vacuity_rule doc = .ok () := by
      unfold kani_vacuity_rule
      rw [hk]
      unfold validate_kani_vacuity
      simp [ha, hv]
    have hwit : kani_witness_rule doc = .error (fail doc witnessRequiredMsg) := by
      unfold kani_witness_rule
      rw [hk]
      unfold validate_kani_witnesses
      simp [ha, hw]
    rw [main, hvac, hwit]
    rfl
  · intro ha hv hw
    have hvac : kani_vacuity_rule doc = .ok () := by
      unfold kani_vacuity_rule
      rw [hk]
      unfold validate_kani_vacuity
      simp [ha, hv]
    have hwit : kani_witness_rule doc = .ok () := by
      unfold kani_witness_rule
      rw [hk]
      unfold validate_kani_witnesses
      cases hlist : doc.witness with
      | nil => exact absurd hlist hw
      | cons w ws => simp [ha]
    rw [main, hvac, hwit]
    rfl
  · intro ha hv
    have hvac : kani_vacuity_rule doc = .error (fail doc vacuityRequiredMsg) := by
      unfold kani_vacuity_rule
      rw [hk]
      unfold validate_kani_vacuity
      simp [ha, hv]
    rw [main, hvac]
    rfl
  · intro ha vb hv hb
    have hvac : kani_vacuity_rule doc = .error (fail doc vacuityBlankMsg) := by
      unfold kani_vacuity_rule
      rw [hk]
      unfold validate_kani_vacuity
      simp [ha, hv, hb]
    rw [main, hvac]
    rfl
  · intro ha vb hv hb
    have hvac : kani_vacuity_rule doc = .ok () := by
      unfold kani_vacuity_rule
      rw [hk]
      unfold validate_kani_vacuity
      simp [ha, hv, hb]
    have hwit : kani_witness_rule doc = .ok () := by
      unfold kani_witness_rule
      rw [hk]
      unfold validate_kani_witnesses
      simp [ha]
    rw [main, hvac, hwit]
    rfl

/-- Document configuring Kani with `allow_vacuous=false` and an empty
witness list (otherwise valid). -/
def c3docA : TheoremDoc :=
  { c2doc with evidence := ⟨some ⟨1, .Success, false, none⟩, none, none⟩ }

/-- Document configuring Kani with `allow_vacuous=true` and a non-blank
vacuity justification, with an empty witness list (otherwise valid). -/
def c3docB : TheoremDoc :=
  { c2doc with
      evidence := ⟨some ⟨1, .Success, true, some "demonstrated"⟩, none, none⟩ }

/-- Witness for C3 at concrete documents: the reject row
(allow_vacuous=false, empty witness) and the accept row
(allow_vacuous=true, non-blank justification, empty witness). -/
theorem c3_vacuity_policy_matrix_witness :
    validate_theorem_doc parseStub c3docA =
      .error (fail c3docA witnessRequiredMsg) ∧
    validate_theorem_doc parseStub c3docB = .ok () :=
  ⟨(c3_vacuity_policy_matrix parseStub c3docA ⟨1, .Success, false, none⟩
      rfl (by decide) (by decide) (by decide) (by decide) (by decide)
      (by decide) (by decide) (by decide) (by decide)).1 rfl rfl rfl,
   (c3_vacuity_policy_matrix parseStub c3docB
      ⟨1, .Success, true, some "demonstrated"⟩
      rfl (by decide) (by decide) (by decide) (by decide) (by decide)
      (by decide) (by decide) (by decide) (by decide)).2.2.2.2
      rfl "demonstrated" rfl (by decide)⟩

-- ── Claim C1 ────────────────────────────────────────────────────────

/-- Specification-side field correspondence between a converted Kani
configuration and its raw source: unwind and expectation carried over,
the vacuity flag defaulting to `false` when absent, the justification
carried over span-stripped. -/
def KaniMirrorsRaw (k : KaniEvidence) (rk : RawKaniEvidence) : Prop :=
  k.unwind = rk.unwind.value ∧ k.expect = rk.expect ∧
  (rk.allow_vacuous = none → k.allow_vacuous = false) ∧
  (∀ a, rk.allow_vacuous = some a → k.allow_vacuous = a.value) ∧
  (rk.vacuity_because = none → k.vacuity_because = none) ∧
  (∀ v, rk.vacuity_because = some v → k.vacuity_because = some v.value)

/-- Specification-side field correspondence between a public document
and its raw source: every scalar field equals the span-stripped source
value, every list has the same length with the entry at each position
carried over, and the `Forall`/`Let`/step structures are carried over
unchanged, preserving order. -/
def DocMirrorsRaw (d : TheoremDoc) (r : RawTheoremDoc) : Prop :=
  d.schema = r.schema ∧
  d.theorem_name = r.theorem_name.value ∧
  d.about = r.about.value ∧
  d.tags = r.tags ∧
  d.given = r.given ∧
  d.forall_vars = r.forall_vars ∧
  d.assume.length = r.assume.length ∧
  (∀ j a, r.assume.get? j = some a →
    ∃ b, d.assume.get? j = some b ∧
      b.expr = a.expr.value ∧ b.because = a.because.value) ∧
  d.witness.length = r.witness.length ∧
  (∀ j w, r.witness.get? j = some w →
    ∃ b, d.witness.get? j = some b ∧
      b.cover = w.cover.value ∧ b.because = w.because.value) ∧
  d.let_bindings = r.let_bindings ∧
  d.do_steps = r.do_steps ∧
  d.prove.length = r.prove.length ∧
  (∀ j p, r.prove.get? j = some p →
    ∃ b, d.prove.get? j = some b ∧
      b.assert_expr = p.assert_expr.value ∧ b.because = p.because.value) ∧
  d.evidence.verus = r.evidence.verus ∧
  d.evidence.stateright = r.evidence.stateright ∧
  (r.evidence.kani = none → d.evidence.kani = none) ∧
  (∀ rk, r.evidence.kani = some rk →
    ∃ k, d.evidence.kani = some k ∧ KaniMirrorsRaw k rk)

theorem to_theorem_doc_mirrors (r : RawTheoremDoc) :
    DocMirrorsRaw r.to_theorem_doc r := by
  unfold DocMirrorsRaw RawTheoremDoc.to_theorem_doc
  refine ⟨rfl, rfl, rfl, rfl, rfl, rfl, by simp, ?_, by simp, ?_, rfl, rfl,
    by simp, ?_, rfl, rfl, ?_, ?_⟩
  · intro j a h
    refine ⟨⟨a.expr.value, a.because.value⟩, ?_, rfl, rfl⟩
    rw [List.get?_map, h]
    rfl
  · intro j w h
    refine ⟨⟨w.cover.value, w.because.value⟩, ?_, rfl, rfl⟩
    rw [List.get?_map, h]
    rfl
  · intro j p h
    refine ⟨⟨p.assert_expr.value, p.because.value⟩, ?_, rfl, rfl⟩
    rw [List.get?_map, h]
    rfl
  · intro h
    simp [RawEvidence.to_evidence, h]
  · intro rk h
    refine ⟨rk.to_kani_evidence, by simp [RawEvidence.to_evidence, h], ?_⟩
    unfold KaniMirrorsRaw RawKaniEvidence.to_kani_evidence
    refine ⟨rfl, rfl, ?_, ?_, ?_, ?_⟩
    · intro ha; simp [ha]
    · intro a ha; simp [ha]
    · intro hv; simp [hv]
    · intro v hv; simp [hv]

theorem first_error_ok_iff :
    ∀ l : List (Except SchemaError Unit),
      first_error l = .ok () ↔ ∀ e ∈ l, e = .ok ()
  | [] => by simp [first_error]
  | x :: rest => by
    cases x with
    | error e =>
      simp only [first_error]
      constructor
      · intro h; cases h
      · intro h
        have := h (.error e) (by simp)
        cases this
    | ok u =>
      cases u
      simp only [first_error]
      rw [first_error_ok_iff rest]
      constructor
      · intro h e he
        simp only [List.mem_cons] at he
        cases he with
        | inl h2 => rw [h2]
        | inr h2 => exact h e h2
      · intro h e he
        exact h e (by simp [he])

theorem backend_flags {e : Evidence} (h : e.has_any_backend = true) :
    (e.kani.isNone && e.verus.isNone && e.stateright.isNone) = false := by
  unfold Evidence.has_any_backend at h
  cases hk : e.kani <;> cases hv : e.verus <;> cases hs : e.stateright <;>
    simp_all

/-- A document accepted by the full validation battery passes both of
the loader's per-document checks. -/
theorem validate_ok_loader_checks {parse : String → Except String SynExpr}
    {d : TheoremDoc} (h : validate_theorem_doc parse d = .ok ()) :
    d.prove.isEmpty = false ∧
      (d.evidence.kani.isNone && d.evidence.verus.isNone &&
        d.evidence.stateright.isNone) = false := by
  rw [validate_theorem_doc_eq] at h
  have hall := (first_error_ok_iff _).mp h
  have hprove := hall (validate_prove_non_empty d) (by simp [rule_checks])
  have hbackend := hall (backend_rule d) (by simp [rule_checks])
  constructor
  · unfold validate_prove_non_empty at hprove
    cases hp : d.prove.isEmpty with
    | false => rfl
    | true => rw [hp] at hprove; simp at hprove
  · unfold backend_rule at hbackend
    cases hb : d.evidence.has_any_backend with
    | true => exact backend_flags hb
    | false => rw [hb] at hbackend; simp at hbackend

theorem check_docs_ok :
    ∀ docs : List TheoremDoc,
      (∀ d ∈ docs, d.prove.isEmpty = false ∧
        (d.evidence.kani.isNone && d.evidence.verus.isNone &&
          d.evidence.stateright.isNone) = false) →
      check_docs docs = .ok ()
  | [], _ => rfl
  | d :: rest, h => by
    have hd := h d (by simp)
    unfold check_docs
    simp only [hd.1, Bool.false_eq_true, if_false, hd.2]
    exact check_docs_ok rest (fun x hx => h x (by simp [hx]))

/-- C1: when every document of a parsed input passes the full
validation battery, `load_theorem_docs` returns `Ok` with exactly one
document per input document, in input order, and each document's field
values equal the raw source values with list and mapping order
preserved (`DocMirrorsRaw`). -/
theorem c1_load_round_trip (parse : String → Except String SynExpr)
    (raws : List RawTheoremDoc)
    (hval : ∀ r ∈ raws,
      validate_theorem_doc parse r.to_theorem_doc = .ok ()) :
    load_theorem_docs (.ok (raws.map RawTheoremDoc.to_theorem_doc)) =
      .ok (raws.map RawTheoremDoc.to_theorem_doc) ∧
    (raws.map RawTheoremDoc.to_theorem_doc).length = raws.length ∧
    (∀ i r, raws.get? i = some r →
      ∃ d, (raws.map RawTheoremDoc.to_theorem_doc).get? i = some d ∧
        DocMirrorsRaw d r) := by
  refine ⟨?_, by simp, ?_⟩
  · have hc : check_docs (raws.map RawTheoremDoc.to_theorem_doc) = .ok () := by
      apply check_docs_ok
      intro d hd
      simp only [List.mem_map] at hd
      obtain ⟨r, hr, hrd⟩ := hd
      subst hrd
      exact validate_ok_loader_checks (hval r hr)
    simp only [load_theorem_docs, hc]
  · intro i r h
    refine ⟨r.to_theorem_doc, ?_, to_theorem_doc_mirrors r⟩
    rw [List.get?_map, h]
    rfl

/-- A raw document whose conversion passes the full battery. -/
def c1raw : RawTheoremDoc :=
  { schema := none
    theorem_name := ⟨⟨"T"⟩, ⟨2, 1⟩⟩
    about := ⟨"valid", ⟨3, 1⟩⟩
    tags := []
    given := []
    forall_vars := []
    assume := []
    witness := [⟨⟨"true", ⟨10, 5⟩⟩, ⟨"always reachable", ⟨11, 5⟩⟩⟩]
    let_bindings := []
    do_steps := []
    prove := [⟨⟨"true", ⟨4, 5⟩⟩, ⟨"trivially true", ⟨5, 5⟩⟩⟩]
    evidence := ⟨some ⟨⟨1, ⟨8, 5⟩⟩, .Success, none, none⟩, none, none⟩ }

/-- Witness for C1 at a concrete one-document input. -/
theorem c1_load_round_trip_witness :
    load_theorem_docs (.ok ([c1raw].map RawTheoremDoc.to_theorem_doc)) =
      .ok ([c1raw].map RawTheoremDoc.to_theorem_doc) :=
  (c1_load_round_trip parseStub [c1raw] (by
    intro r hr
    simp only [List.mem_singleton] at hr
    subst hr
    decide)).1

-- ── Claim C9: string lemmas ─────────────────────────────────────────

theorem stripPre_append (p t : String) : stripPre p (p ++ t) = some t := by
  unfold stripPre
  rw [String.data_append]
  rw [if_pos (by simp [List.isPrefixOf_iff_prefix])]
  rw [List.drop_left]

theorem isPrefixOf_false_of_ne_head (a b : Char) (as bs : List Char)
    (h : a ≠ b) : (a :: as).isPrefixOf (b :: bs) = false := by
  show (a == b && as.isPrefixOf bs) = false
  simp [h]

theorem takeWhile_append_stop (p : Char → Bool) (l1 : List Char) (y : Char)
    (rest : List Char) (h1 : l1.all p = true) (hy : p y = false) :
    (l1 ++ y :: rest).takeWhile p = l1 := by
  induction l1 with
  | nil => simp [List.takeWhile, hy]
  | cons x xs ih =>
    simp only [List.all_cons, Bool.and_eq_true] at h1
    simp [List.takeWhile, h1.1, ih h1.2]

theorem contains_append_mid (l1 : List Char) (y : Char) (rest : List Char) :
    (l1 ++ y :: rest).contains y = true := by
  simp [List.contains, List.elem_iff]

theorem strContains_of_mid (a pat b : String) :
    strContains (a ++ pat ++ b) pat = true := by
  unfold strContains
  rw [List.any_eq_true]
  refine ⟨a.data.length, ?_, ?_⟩
  · simp [List.mem_range, String.data_append]
    omega
  · have hd : (a ++ pat ++ b).data = a.data ++ (pat.data ++ b.data) := by
      rw [String.data_append, String.data_append, List.append_assoc]
    rw [hd, List.drop_left]
    simp [List.isPrefixOf_iff_prefix]

/-- The `split_once` on a digit prefix followed by a colon-headed marker:
the part before the first colon is the digit string. -/
theorem splitOnce_because (numStr tail : String)
    (hnc : numStr.data.all (fun d => !(d == ':')) = true) :
    splitOnceBefore (numStr ++ (": because " ++ tail)) ':' = some numStr := by
  unfold splitOnceBefore
  have hd : (numStr ++ (": because " ++ tail)).data =
      numStr.data ++ ':' :: (" because ".data ++ tail.data) := by
    rw [String.data_append]
    exact rfl
  rw [hd]
  rw [if_pos (contains_append_mid _ _ _)]
  rw [takeWhile_append_stop _ _ _ _ hnc (by decide)]

theorem splitOnce_assert (numStr tail : String)
    (hnc : numStr.data.all (fun d => !(d == ':')) = true) :
    splitOnceBefore (numStr ++ (": assert " ++ tail)) ':' = some numStr := by
  unfold splitOnceBefore
  have hd : (numStr ++ (": assert " ++ tail)).data =
      numStr.data ++ ':' :: (" assert ".data ++ tail.data) := by
    rw [String.data_append]
    exact rfl
  rw [hd]
  rw [if_pos (contains_append_mid _ _ _)]
  rw [takeWhile_append_stop _ _ _ _ hnc (by decide)]

-- ── Claim C9 ────────────────────────────────────────────────────────

/-- C9: the diagnostic locator maps a recognised indexed message to the
named field's own span — a failure on the Nth proof obligation's
justification (`because`) field to that field's span, and a failure on
its `assert` field to the assert span — and falls back to the
document's theorem-name-field location whenever no registered message
prefix matches the reason. -/
theorem c9_diagnostic_locator (r : RawTheoremDoc) :
    (∀ (n : Nat) (numStr : String) (p : RawAssertion) (tail : String),
      numStr.data.all (fun d => !(d == ':')) = true →
      parse_usize (strTrim numStr) = some n → n ≠ 0 →
      r.prove.get? (n - 1) = some p →
      r.location_for_validation_reason
        ("Prove assertion " ++ numStr ++ ": because " ++ tail) =
        p.because.referenced) ∧
    (∀ (n : Nat) (numStr : String) (p : RawAssertion) (tail : String),
      numStr.data.all (fun d => !(d == ':')) = true →
      parse_usize (strTrim numStr) = some n → n ≠ 0 →
      r.prove.get? (n - 1) = some p →
      strContains ("Prove assertion " ++ numStr ++ ": assert " ++ tail)
        ": because " = false →
      r.location_for_validation_reason
        ("Prove assertion " ++ numStr ++ ": assert " ++ tail) =
        p.assert_expr.referenced) ∧
    (∀ reason : String,
      strStarts "About must be non-empty" reason = false →
      strStarts "Prove assertion " reason = false →
      strStarts "Assume constraint " reason = false →
      strStarts "Witness " reason = false →
      strStarts "Evidence.kani.unwind" reason = false →
      strStarts "vacuity_because is required when allow_vacuous is true"
        reason = false →
      strStarts "Evidence.kani.vacuity_because must be non-empty"
        reason = false →
      r.location_for_validation_reason reason = r.theorem_location) := by
  refine ⟨?_, ?_, ?_⟩
  · intro n numStr p tail hnc hp hn hget
    have hassoc : "Prove assertion " ++ numStr ++ ": because " ++ tail =
        "Prove assertion " ++ (numStr ++ (": because " ++ tail)) := by
      rw [String.append_assoc, String.append_assoc]
    have habout : strStarts "About must be non-empty"
        ("Prove assertion " ++ (numStr ++ (": because " ++ tail))) = false := by
      unfold strStarts
      have hd : ("Prove assertion " ++ (numStr ++ (": because " ++ tail))).data =
          'P' :: ("rove assertion ".data ++
            (numStr ++ (": because " ++ tail)).data) := rfl
      rw [hd]
      exact isPrefixOf_false_of_ne_head 'A' 'P' _ _ (by decide)
    have hidx : indexed_error_position
        ("Prove assertion " ++ (numStr ++ (": because " ++ tail)))
        "Prove assertion " = some (n - 1) := by
      unfold indexed_error_position
      simp only [stripPre_append, splitOnce_because numStr tail hnc, hp,
        if_neg hn]
    have hcont : strContains
        ("Prove assertion " ++ (numStr ++ (": because " ++ tail)))
        ": because " = true := by
      rw [← String.append_assoc, ← String.append_assoc]
      exact strContains_of_mid ("Prove assertion " ++ numStr) ": because " tail
    have hprove : r.prove_field_location
        ("Prove assertion " ++ (numStr ++ (": because " ++ tail))) =
        some p.because.referenced := by
      unfold RawTheoremDoc.prove_field_location
      simp only [hidx, hget, hcont, if_true]
    rw [hassoc]
    unfold RawTheoremDoc.location_for_validation_reason
      RawTheoremDoc.location_for_reason
    rw [habout, hprove]
    rfl
  · intro n numStr p tail hnc hp hn hget hnb
    have hassoc : "Prove assertion " ++ numStr ++ ": assert " ++ tail =
        "Prove assertion " ++ (numStr ++ (": assert " ++ tail)) := by
      rw [String.append_assoc, String.append_assoc]
    have habout : strStarts "About must be non-empty"
        ("Prove assertion " ++ (numStr ++ (": assert " ++ tail))) = false := by
      unfold strStarts
      have hd : ("Prove assertion " ++ (numStr ++ (": assert " ++ tail))).data =
          'P' :: ("rove assertion ".data ++
            (numStr ++ (": assert " ++ tail)).data) := rfl
      rw [hd]
      exact isPrefixOf_false_of_ne_head 'A' 'P' _ _ (by decide)
    have hidx : indexed_error_position
        ("Prove assertion " ++ (numStr ++ (": assert " ++ tail)))
        "Prove assertion " = some (n - 1) := by
      unfold indexed_error_position
      simp only [stripPre_append, splitOnce_assert numStr tail hnc, hp,
        if_neg hn]
    rw [hassoc] at hnb
    have hprove : r.prove_field_location
        ("Prove assertion " ++ (numStr ++ (": assert " ++ tail))) =
        some p.assert_expr.referenced := by
      unfold RawTheoremDoc.prove_field_location
      simp only [hidx, hget, hnb, Bool.false_eq_true, if_false]
    rw [hassoc]
    unfold RawTheoremDoc.location_for_validation_reason
      RawTheoremDoc.location_for_reason
    rw [habout, hprove]
    rfl
  · intro reason h0 h1 h2 h3 h4 h5 h6
    have hprove : r.prove_field_location reason = none := by
      unfold RawTheoremDoc.prove_field_location indexed_error_position stripPre
      rw [show ("Prove assertion ").data.isPrefixOf reason.data = false from h1]
      rfl
    have hassume : r.assume_field_location reason = none := by
      unfold RawTheoremDoc.assume_field_location indexed_error_position stripPre
      rw [show ("Assume constraint ").data.isPrefixOf reason.data = false from h2]
      rfl
    have hwitness : r.witness_field_location reason = none := by
      unfold RawTheoremDoc.witness_field_location indexed_error_position stripPre
      rw [show ("Witness ").data.isPrefixOf reason.data = false from h3]
      rfl
    have hkani : r.kani_field_location reason = none := by
      unfold RawTheoremDoc.kani_field_location
      cases r.evidence.kani with
      | none => rfl
      | some kani => rw [h4, h5, h6]; rfl
    unfold RawTheoremDoc.location_for_validation_reason
      RawTheoremDoc.location_for_reason
    rw [h0, hprove, hassume, hwitness, hkani]
    rfl

/-- A raw document with two proof obligations carrying distinct spans. -/
def c9raw : RawTheoremDoc :=
  { c1raw with
      prove := [⟨⟨"true", ⟨4, 5⟩⟩, ⟨"t1", ⟨5, 5⟩⟩⟩,
                ⟨⟨"x", ⟨6, 5⟩⟩, ⟨"t2", ⟨7, 5⟩⟩⟩] }

/-- Witness for C9 at concrete reasons: the second obligation's
justification failure maps to that field's span, its assert failure to
the assert span, and an unrecognised reason to the theorem-name
fallback. -/
theorem c9_diagnostic_locator_witness :
    c9raw.location_for_validation_reason
      ("Prove assertion " ++ "2" ++ ": because " ++
        "must be non-empty after trimming") = ⟨7, 5⟩ ∧
    c9raw.location_for_validation_reason
      ("Prove assertion " ++ "2" ++ ": assert " ++
        "must be non-empty after trimming") = ⟨6, 5⟩ ∧
    c9raw.location_for_validation_reason "unrecognised reason" = ⟨2, 1⟩ :=
  ⟨(c9_diagnostic_locator c9raw).1 2 "2" ⟨⟨"x", ⟨6, 5⟩⟩, ⟨"t2", ⟨7, 5⟩⟩⟩
     "must be non-empty after trimming" (by decide) (by decide)
     (by decide) rfl,
   (c9_diagnostic_locator c9raw).2.1 2 "2" ⟨⟨"x", ⟨6, 5⟩⟩, ⟨"t2", ⟨7, 5⟩⟩⟩
     "must be non-empty after trimming" (by decide) (by decide)
     (by decide) rfl (by decide),
   (c9_diagnostic_locator c9raw).2.2 "unrecognised reason" (by decide)
     (by decide) (by decide) (by decide) (by decide) (by decide) (by decide)⟩

end Theoremc
